import Mathlib

/-!
Verification development for the incremental option-chain signal engine
(`option_signals.py`).  The Python module is shallowly embedded: numeric
values (prices, implied volatilities, ratios) become `ℚ`, Python ints become
`ℤ`, Python `None` becomes `Option`, and the mutable per-run snapshot state is
threaded explicitly.  `round(x, n)` is modelled as exact rational
round-half-to-even.  Wall-clock instants are modelled as rational minute
counts; parsing of the persisted timestamp string is abstracted into an
`Option (Option ℚ)` input (missing / present-but-unparseable / parsed).
-/

/-- Round a rational to the nearest integer, ties to the even integer.  This
models Python's `round` (banker's rounding) over the rational idealization of
the float arithmetic in the source. -/
def roundHalfEven (q : ℚ) : ℤ :=
  if q - ⌊q⌋ < 1/2 then ⌊q⌋
  else if q - ⌊q⌋ > 1/2 then ⌊q⌋ + 1
  else if ⌊q⌋ % 2 = 0 then ⌊q⌋ else ⌊q⌋ + 1

/-- Model of Python `round(q, n)`: round to `n` decimal places. -/
def roundTo (n : ℕ) (q : ℚ) : ℚ := (roundHalfEven (q * 10 ^ n) : ℚ) / 10 ^ n

/-- Config constant `EMA_PERIOD = 3` ("small EMA for momentum"). -/
def EMA_PERIOD : ℚ := 3

/-- Weight table `WEIGHTS` entry for `price_trend`. -/
def WEIGHT_price_trend : ℚ := 0.30

/-- Weight table `WEIGHTS` entry for `ema_momentum`. -/
def WEIGHT_ema_momentum : ℚ := 0.20

/-- Weight table `WEIGHTS` entry for `vwap_dev`. -/
def WEIGHT_vwap_dev : ℚ := 0.15

/-- Weight table `WEIGHTS` entry for `iv_trend`. -/
def WEIGHT_iv_trend : ℚ := 0.20

/-- Weight table `WEIGHTS` entry for `oi_speed`. -/
def WEIGHT_oi_speed : ℚ := 0.15

/-- Source `ema_update(prev_ema, price, period)`: incremental EMA update with
`alpha = 2/(period+1)`; if `prev_ema is None` the raw price is returned. -/
def ema_update (prev_ema : Option ℚ) (price : ℚ) (period : ℚ) : ℚ :=
  match prev_ema with
  | none => price
  | some prev =>
    let alpha := 2 / (period + 1)
    alpha * price + (1 - alpha) * prev

/-- Persisted per-strike state as read back from `previous_snapshot.json`:
every key may be absent, mirroring the `.get` accesses in the source. -/
structure PrevStrike where
  ema_ltp : Option ℚ := none
  cum_vwap_num : Option ℚ := none
  cum_vol : Option ℤ := none
  iv : Option ℚ := none
  coi : Option ℤ := none
deriving DecidableEq

/-- Prior snapshot state for one symbol.  `underlying` models the legacy
top-level `"underlying"` key and `metaUnderlying` the `"meta"."underlying"`
key; `compute_price_trend` consults both via Python `or`.  `strikes` models
the string-keyed `"strikes"` mapping (keys are `str(strike)` for integer
strikes, so an `ℤ`-indexed partial map is faithful). -/
structure PrevSym where
  underlying : Option ℚ := none
  metaUnderlying : Option ℚ := none
  strikes : ℤ → Option PrevStrike := fun _ => none

/-- Per-strike record written into `self.new_snapshot` for a processed strike.
All five fields are always written together: `compute_ema_and_update`,
`compute_vwap_and_update`, `compute_iv_trend_and_update` and
`compute_oi_speed` each unconditionally store their field before the
liquidity filter is consulted. -/
structure NewStrike where
  ema_ltp : ℚ
  cum_vwap_num : ℚ
  cum_vol : ℤ
  iv : ℚ
  coi : ℤ
deriving DecidableEq

/-- The in-progress next-generation strike map for one symbol (the portion of
`self.new_snapshot["symbols"][symbol]["strikes"]` built during a run). -/
def NextStrikes : Type := ℤ → Option NewStrike

/-- Source `compute_price_trend(symbol, underlying)`: percent change of the
underlying versus the prior snapshot, rounded to 4 decimals; `0.0` when no
truthy prior price is found.  `prev_sym.get("underlying") or
(prev_sym.get("meta") or {}).get("underlying")` falls through on `None` or
`0`, and the final `if prev_price:` also rejects `0`. -/
def compute_price_trend (prev : PrevSym) (underlying : ℚ) : ℚ :=
  let prev_price : Option ℚ :=
    match prev.underlying with
    | some p => if p = 0 then prev.metaUnderlying else some p
    | none => prev.metaUnderlying
  match prev_price with
  | some p => if p = 0 then 0 else roundTo 4 ((underlying - p) / p * 100)
  | none => 0

/-- Source `compute_ema_and_update(symbol, strike, option_ltp)`: returns
`(prev, new_ema)`; `new_ema` is also the `ema_ltp` value persisted for the
strike in the new snapshot. -/
def compute_ema_and_update (prev : PrevSym) (strike : ℤ) (option_ltp : ℚ) :
    Option ℚ × ℚ :=
  let prev_e := (prev.strikes strike).bind PrevStrike.ema_ltp
  (prev_e, ema_update prev_e option_ltp EMA_PERIOD)

/-- Prior `cum_vwap_num` for a strike: `prev_strikes[str(strike)].get("cum_vwap_num", 0.0)`
when the strike is present, else `0.0`. -/
def prev_cum_num (prev : PrevSym) (strike : ℤ) : ℚ :=
  match prev.strikes strike with
  | some st => st.cum_vwap_num.getD 0
  | none => 0

/-- Prior `cum_vol` for a strike, defaulting to `0` exactly as in the source. -/
def prev_cum_vol (prev : PrevSym) (strike : ℤ) : ℤ :=
  match prev.strikes strike with
  | some st => st.cum_vol.getD 0
  | none => 0

/-- Source `compute_vwap_and_update(symbol, strike, option_ltp, vol)`: updates
the lifetime accumulators and returns `(vwap, cum_num, cum_vol)` where the two
accumulators are the values persisted to the new snapshot (the Python function
returns the *previous* accumulators, which the caller discards).
`add_num = option_ltp * vol if option_ltp and vol else 0.0` uses Python
truthiness, hence the two zero tests. -/
def compute_vwap_and_update (prev : PrevSym) (strike : ℤ) (option_ltp : ℚ)
    (vol : ℤ) : Option ℚ × ℚ × ℤ :=
  let add_num := if option_ltp ≠ 0 ∧ vol ≠ 0 then option_ltp * (vol : ℚ) else 0
  let cum_num := prev_cum_num prev strike + add_num
  let cum_vol := prev_cum_vol prev strike + vol
  let vwap : Option ℚ := if cum_vol > 0 then some (cum_num / (cum_vol : ℚ)) else none
  (vwap, cum_num, cum_vol)

/-- Source `compute_iv_trend_and_update(symbol, strike, iv_now)`: returns the
IV delta versus the prior recorded IV (`none` when no prior IV); `iv_now` is
persisted for the strike regardless. -/
def compute_iv_trend_and_update (prev : PrevSym) (strike : ℤ) (iv_now : ℚ) :
    Option ℚ :=
  match (prev.strikes strike).bind PrevStrike.iv with
  | some prev_iv => some (iv_now - prev_iv)
  | none => none

/-- Source `compute_oi_speed(symbol, strike, coi)`.  `prevTime` models
`self.snapshot.get("timestamp")` composed with `datetime.strptime`: `none` is a
missing timestamp, `some none` a present but unparseable one, `some (some t)`
one that parses to instant `t` (in minutes).  `now` is the current instant in
the same unit, so `(now_dt - prev_dt).total_seconds() / 60.0 = now - t`.  The
missing-strike baseline defaults to `0` and the result is rounded to 4
decimals, exactly as in the source.  In the two early-return paths the current
`coi` is still persisted (handled by the caller's state record). -/
def compute_oi_speed (prevTime : Option (Option ℚ)) (now : ℚ) (prev : PrevSym)
    (strike : ℤ) (coi : ℤ) : ℚ :=
  match prevTime with
  | none => 0
  | some none => 0
  | some (some t) =>
    let minutes := max 1 (now - t)
    let prev_coi : ℤ :=
      match prev.strikes strike with
      | some st => st.coi.getD 0
      | none => 0
    roundTo 4 (((coi : ℚ) - (prev_coi : ℚ)) / minutes)

/-- Metric bundle fed to `score_candidate` (the keys it reads from the
`metrics` dict). -/
structure ScoreInput where
  price_trend_pct : ℚ
  ema_delta : ℚ
  vwap_dev_pct : ℚ
  iv_delta : ℚ
  oi_speed : ℚ
deriving DecidableEq

/-- Source `score_candidate(metrics)`: clamp each metric to its fixed domain,
divide into [-1, 1] (IV delta with the sign inverted), weight, scale by 100
and round to 2 decimals. -/
def score_candidate (m : ScoreInput) : ℚ :=
  let pt := max (-3) (min 3 m.price_trend_pct) / 3
  let ed := max (-5) (min 5 m.ema_delta) / 5
  let vd := max (-10) (min 10 m.vwap_dev_pct) / 10
  let ivd := -(max (-5) (min 5 m.iv_delta)) / 5
  let oi_norm := max (-1000) (min 1000 m.oi_speed) / 1000
  let comp := WEIGHT_price_trend * pt + WEIGHT_ema_momentum * ed +
    WEIGHT_vwap_dev * vd + WEIGHT_iv_trend * ivd + WEIGHT_oi_speed * oi_norm
  roundTo 2 (comp * 100)

/-- One side (CE or PE) of a raw option-chain row; every field may be absent,
and `safe_int`/`safe_float` turn absence into `0`. -/
structure SideQuote where
  openInterest : Option ℤ := none
  changeinOpenInterest : Option ℤ := none
  totalTradedVolume : Option ℤ := none
  impliedVolatility : Option ℚ := none
  lastPrice : Option ℚ := none
deriving DecidableEq

/-- One raw option-chain row for one strike of the analyzed expiry; the CE and
PE sub-objects may each be absent (`r.get("CE") or {}`). -/
structure Row where
  strikePrice : ℤ
  CE : Option SideQuote := none
  PE : Option SideQuote := none
deriving DecidableEq

/-- Output record of `analyze_strike_strength` for one row. -/
structure Info where
  strike : ℤ
  ce_oi : ℤ
  pe_oi : ℤ
  ce_chg : ℤ
  pe_chg : ℤ
  ce_vol : ℤ
  pe_vol : ℤ
  ce_iv : ℚ
  pe_iv : ℚ
  ce_ltp : ℚ
  pe_ltp : ℚ
  ce_strength : ℤ
  pe_strength : ℤ
deriving DecidableEq

/-- Source `analyze_strike_strength(strike_rows)`: summarize per-strike CE/PE
info into numeric fields, defaulting every missing value to zero. -/
def analyze_strike_strength (strike_rows : List Row) : List Info :=
  strike_rows.map fun r =>
    let ce := r.CE.getD {}
    let pe := r.PE.getD {}
    let ce_oi := ce.openInterest.getD 0
    let pe_oi := pe.openInterest.getD 0
    let ce_chg := ce.changeinOpenInterest.getD 0
    let pe_chg := pe.changeinOpenInterest.getD 0
    let ce_vol := ce.totalTradedVolume.getD 0
    let pe_vol := pe.totalTradedVolume.getD 0
    { strike := r.strikePrice
      ce_oi := ce_oi, pe_oi := pe_oi
      ce_chg := ce_chg, pe_chg := pe_chg
      ce_vol := ce_vol, pe_vol := pe_vol
      ce_iv := ce.impliedVolatility.getD 0, pe_iv := pe.impliedVolatility.getD 0
      ce_ltp := ce.lastPrice.getD 0, pe_ltp := pe.lastPrice.getD 0
      ce_strength := ce_oi + ce_chg + ce_vol
      pe_strength := pe_oi + pe_chg + pe_vol }

/-- Option side, the `option_side` / `option_type` strings `"CE"` / `"PE"`. -/
inductive Side where
  | CE
  | PE
deriving DecidableEq

/-- Signal label; the source uses the strings `"STRONG BUY"`, `"BUY"`,
`"STRONG SELL"`, `"SELL"`. -/
inductive Label where
  | STRONG_BUY
  | BUY
  | STRONG_SELL
  | SELL
deriving DecidableEq

/-- The five per-side fields `select_optimal_strike_with_metrics` extracts
from an `Info` record for the requested side. -/
structure SideFields where
  ltp : ℚ
  iv : ℚ
  vol : ℤ
  coi : ℤ
  oi_val : ℤ
deriving DecidableEq

/-- Side-dependent field selection (the `if option_side == "CE"` block). -/
def chooseSide (side : Side) (info : Info) : SideFields :=
  match side with
  | .CE => ⟨info.ce_ltp, info.ce_iv, info.ce_vol, info.ce_chg, info.ce_oi⟩
  | .PE => ⟨info.pe_ltp, info.pe_iv, info.pe_vol, info.pe_chg, info.pe_oi⟩

/-- EMA delta as computed in the selection loop: `0.0` when there is no prior
EMA, else `new_ema - prev_ema`. -/
def ema_delta_of (prev_ema : Option ℚ) (new_ema : ℚ) : ℚ :=
  match prev_ema with
  | none => 0
  | some p => new_ema - p

/-- VWAP deviation percent as computed in the selection loop: the guard
`if vwap:` rejects both an undefined VWAP and a VWAP of exactly `0`. -/
def vwap_dev_of (vwap : Option ℚ) (ltp : ℚ) : ℚ :=
  match vwap with
  | some v => if v = 0 then 0 else (ltp - v) / v * 100
  | none => 0

/-- The `metrics` dict assembled per candidate strike. -/
structure Metrics where
  price_trend_pct : ℚ
  ema_prev : Option ℚ
  ema_new : ℚ
  ema_delta : ℚ
  vwap : Option ℚ
  vwap_dev_pct : ℚ
  iv_delta : ℚ
  iv_now : ℚ
  oi_speed : ℚ
  ltp : ℚ
  volume : ℤ
  coi : ℤ
deriving DecidableEq

/-- The metric-computation block of `select_optimal_strike_with_metrics` for
one strike: runs all five metric helpers against the prior snapshot and
returns the `metrics` dict together with the per-strike record written into
the new snapshot.  This block executes before the liquidity filter. -/
def computeMetrics (prev : PrevSym) (prevTime : Option (Option ℚ)) (now : ℚ)
    (underlying : ℚ) (side : Side) (info : Info) : Metrics × NewStrike :=
  let f := chooseSide side info
  let price_trend_pct := compute_price_trend prev underlying
  let em := compute_ema_and_update prev info.strike f.ltp
  let ema_delta := ema_delta_of em.1 em.2
  let vw := compute_vwap_and_update prev info.strike f.ltp f.vol
  let vwap_dev_pct := vwap_dev_of vw.1 f.ltp
  let iv_delta := (compute_iv_trend_and_update prev info.strike f.iv).getD 0
  let oi_speed := compute_oi_speed prevTime now prev info.strike f.coi
  ({ price_trend_pct := roundTo 4 price_trend_pct
     ema_prev := em.1
     ema_new := em.2
     ema_delta := roundTo 6 ema_delta
     vwap := vw.1
     vwap_dev_pct := roundTo 4 vwap_dev_pct
     iv_delta := roundTo 6 iv_delta
     iv_now := f.iv
     oi_speed := oi_speed
     ltp := f.ltp
     volume := f.vol
     coi := f.coi },
   { ema_ltp := em.2
     cum_vwap_num := vw.2.1
     cum_vol := vw.2.2
     iv := f.iv
     coi := f.coi })

/-- Candidate record built for a strike surviving the liquidity filter. -/
structure Candidate where
  strike : ℤ
  side : Side
  ltp : ℚ
  iv : ℚ
  volume : ℤ
  coi : ℤ
  oi : ℤ
  score : ℚ
  metrics : Metrics
deriving DecidableEq

/-- The `ScoreInput` view of a `metrics` dict (the keys `score_candidate`
reads). -/
def scoreInputOf (m : Metrics) : ScoreInput :=
  ⟨m.price_trend_pct, m.ema_delta, m.vwap_dev_pct, m.iv_delta, m.oi_speed⟩

/-- Candidate constructed for a surviving strike in the selection loop. -/
def mkCandidate (side : Side) (info : Info) (m : Metrics) : Candidate :=
  { strike := info.strike
    side := side
    ltp := m.ltp
    iv := m.iv_now
    volume := m.volume
    coi := m.coi
    oi := (chooseSide side info).oi_val
    score := score_candidate (scoreInputOf m)
    metrics := m }

/-- Liquidity filter condition of the selection loop: the candidate is skipped
when its own-side volume is below 10 and the combined CE+PE open interest at
the strike is below 50.  In the source this test runs after the metric/state
updates and before scoring. -/
def lowLiquidity (side : Side) (info : Info) : Prop :=
  (chooseSide side info).vol < 10 ∧ info.ce_oi + info.pe_oi < 50

instance (side : Side) (info : Info) : Decidable (lowLiquidity side info) :=
  inferInstanceAs (Decidable (And _ _))

/-- One iteration of the selection loop: compute metrics and record the
strike's new-snapshot contribution, then either drop the candidate (liquidity
filter) or score it and append it to the candidate list. -/
def selectStep (prev : PrevSym) (prevTime : Option (Option ℚ)) (now : ℚ)
    (underlying : ℚ) (side : Side) (acc : NextStrikes × List Candidate)
    (info : Info) : NextStrikes × List Candidate :=
  let mr := computeMetrics prev prevTime now underlying side info
  let st' : NextStrikes := fun s => if s = info.strike then some mr.2 else acc.1 s
  if lowLiquidity side info then (st', acc.2)
  else (st', acc.2 ++ [mkCandidate side info mr.1])

/-- The selection loop over all strike infos, threading the in-progress
next-generation state and the candidate list. -/
def selectLoop (prev : PrevSym) (prevTime : Option (Option ℚ)) (now : ℚ)
    (underlying : ℚ) (side : Side) :
    List Info → NextStrikes × List Candidate → NextStrikes × List Candidate
  | [], acc => acc
  | info :: rest, acc =>
    selectLoop prev prevTime now underlying side rest
      (selectStep prev prevTime now underlying side acc info)

/-- The final choice `candidates.sort(key=lambda x: (x["score"], x["volume"]),
reverse=True); candidates[0]` — the head of a stable descending sort is the
first element that is maximal in the lexicographic (score, volume) order,
which this fold computes. -/
def pickStep (best x : Candidate) : Candidate :=
  if best.score < x.score ∨ (best.score = x.score ∧ best.volume < x.volume)
  then x else best

/-- Selection of the best candidate: `None` when no candidate survived, else
the (score, volume)-lexicographically maximal candidate. -/
def pickBest : List Candidate → Option Candidate
  | [] => none
  | c :: cs => some (cs.foldl pickStep c)

/-- Input of the selector and signal generator: the per-symbol analysis
produced by `analyze_atm_strikes` (with the fields the embedded functions
consume; `expiry` and `strikes_analyzed` are only echoed to dashboards). -/
structure Analysis where
  underlying : ℚ
  atm_strike : ℤ
  strike_rows : List Row
  all_rows : List Row

/-- Source `select_optimal_strike_with_metrics(analysis_data, option_side)`:
runs the metric block and filter over every strike of the window and returns
the new-snapshot strike contributions together with the best candidate. -/
def select_optimal_strike_with_metrics (prev : PrevSym)
    (prevTime : Option (Option ℚ)) (now : ℚ) (analysis : Analysis)
    (side : Side) : NextStrikes × Option Candidate :=
  let infos := analyze_strike_strength analysis.strike_rows
  let r := selectLoop prev prevTime now analysis.underlying side infos
    (fun _ => none, [])
  (r.1, pickBest r.2)

/-- Sum of one side's `openInterest` over a list of rows, with every missing
object or field contributing `0` (the `safe_int((r.get("CE") or
{}).get("openInterest"))` accumulation). -/
def sum_oi (proj : Row → Option SideQuote) (rows : List Row) : ℤ :=
  rows.foldl (fun acc r => acc + ((proj r).getD {}).openInterest.getD 0) 0

/-- Put/call open-interest quotient over a list of rows:
`(pe_oi / ce_oi) if ce_oi else 0.0`.  Used for the whole-chain PCR (on
`all_rows`) and for the local ATM-window quotient (on `strike_rows`). -/
def oi_put_call_quotient (rows : List Row) : ℚ :=
  let ce := sum_oi Row.CE rows
  let pe := sum_oi Row.PE rows
  if ce ≠ 0 then (pe : ℚ) / (ce : ℚ) else 0

/-- The sentiment counter block of `generate_signal_from_analysis`: both
counters start at 0 and the three if/elif ladders update them. -/
def sentimentCounters (pcr w : ℚ) : ℤ × ℤ :=
  let bullish : ℤ := 0
  let bearish : ℤ := 0
  let bullish := if pcr ≥ 1.5 then bullish + 2
    else if pcr ≥ 1.2 then bullish + 1 else bullish
  let bearish := if pcr ≤ 0.6 then bearish + 2
    else if pcr ≤ 0.8 then bearish + 1 else bearish
  if w ≥ 1.3 then (bullish + 1, bearish)
  else if w ≤ 0.7 then (bullish, bearish + 1)
  else (bullish, bearish)

/-- The side/label decision ladder of `generate_signal_from_analysis`. -/
def decide_side_label (bullish bearish : ℤ) : Option (Side × Label) :=
  if bullish ≥ 3 then some (.CE, .STRONG_BUY)
  else if bullish ≥ 2 then some (.CE, .BUY)
  else if bearish ≥ 3 then some (.PE, .STRONG_SELL)
  else if bearish ≥ 2 then some (.PE, .SELL)
  else none

/-- The full stateless sentiment classifier: counters then decision. -/
def classifySentiment (pcr w : ℚ) : Option (Side × Label) :=
  let c := sentimentCounters pcr w
  decide_side_label c.1 c.2

/-- Output signal record (the fields of the `out` dict that carry engine
results; the redundant `metrics` echo and the timestamp string are omitted). -/
structure Sig where
  signal : Label
  option_type : Side
  strike : ℤ
  atm : ℤ
  distance_from_atm : ℤ
  ltp : ℚ
  oi : ℤ
  coi : ℤ
  volume : ℤ
  iv : ℚ
  score : ℚ
  pcr : ℚ
  oi_window : ℚ
deriving DecidableEq

/-- Source `generate_signal_from_analysis(analysis)`: whole-chain PCR and
local ATM-window quotient feed the sentiment classifier; on a decided side the
selector runs and a signal is emitted for the best candidate.  The returned
`NextStrikes` is the state contribution of this call (empty when the selector
never ran). -/
def generate_signal_from_analysis (prev : PrevSym)
    (prevTime : Option (Option ℚ)) (now : ℚ) (analysis : Analysis) :
    NextStrikes × Option Sig :=
  let pcr := oi_put_call_quotient analysis.all_rows
  let w := oi_put_call_quotient analysis.strike_rows
  match classifySentiment pcr w with
  | none => (fun _ => none, none)
  | some (side, label) =>
    let r := select_optimal_strike_with_metrics prev prevTime now analysis side
    match r.2 with
    | none => (r.1, none)
    | some best =>
      (r.1, some
        { signal := label
          option_type := side
          strike := best.strike
          atm := analysis.atm_strike
          distance_from_atm :=
            if best.strike ≠ 0 ∧ analysis.atm_strike ≠ 0
            then |best.strike - analysis.atm_strike| else 0
          ltp := best.ltp
          oi := best.oi
          coi := best.coi
          volume := best.volume
          iv := best.iv
          score := best.score
          pcr := roundTo 3 pcr
          oi_window := roundTo 3 w })

/-- A JSON document, as `json.load` can produce: any JSON value, not only
snapshot-shaped objects. -/
inductive Json where
  | null
  | bool (b : Bool)
  | num (q : ℚ)
  | str (s : String)
  | arr (elems : List Json)
  | obj (fields : List (String × Json))

/-- State of the snapshot file as `load_snapshot` can encounter it:
missing, unreadable (opening/reading raises, or the bytes are not valid
JSON so `json.load` raises), or readable with some parsed JSON document. -/
inductive FileState where
  | missing
  | unreadable
  | readable (doc : Json)

/-- The cold-start structure `{"timestamp": None, "symbols": {}}`. -/
def emptySnapshotJson : Json :=
  .obj [("timestamp", .null), ("symbols", .obj [])]

/-- Source `load_snapshot(path)`: the parsed document when the file exists and
parses, else the cold-start structure; modelled as a total function because
every exception inside the `try` is caught. -/
def load_snapshot : FileState → Json
  | .readable doc => doc
  | .missing => emptySnapshotJson
  | .unreadable => emptySnapshotJson

/-- Whether a JSON document is an object.  Every generation committed by
`save_snapshot` is an object (a dict with `timestamp` and `symbols` keys), so
a non-object document is not a committed generation. -/
def Json.isObj : Json → Bool
  | .obj _ => true
  | _ => false

/-- Clamp of every raw metric to its fixed domain, following the spec's table
(price trend to [-3, 3], EMA delta to [-5, 5], VWAP deviation to [-10, 10],
IV delta to [-5, 5], OI velocity to [-1000, 1000]); used to state the
clamp-invariance of the Composite Scorer. -/
def clampScoreInput (m : ScoreInput) : ScoreInput :=
  { price_trend_pct := max (-3) (min 3 m.price_trend_pct)
    ema_delta := max (-5) (min 5 m.ema_delta)
    vwap_dev_pct := max (-10) (min 10 m.vwap_dev_pct)
    iv_delta := max (-5) (min 5 m.iv_delta)
    oi_speed := max (-1000) (min 1000 m.oi_speed) }

/-- A cold-start prior symbol state: no underlying, no strikes. -/
def emptyPrevSym : PrevSym := {}

/-- Example observation: strike 100 with a current change-in-open-interest of
60 on the CE side and a quiet PE side. -/
def exampleInfo60 : Info :=
  { strike := 100
    ce_oi := 0, pe_oi := 0
    ce_chg := 60, pe_chg := 0
    ce_vol := 0, pe_vol := 0
    ce_iv := 0, pe_iv := 0
    ce_ltp := 0, pe_ltp := 0
    ce_strength := 60, pe_strength := 0 }

/-- Example prior state holding a recorded change-in-open-interest baseline of
100 at strike 100. -/
def examplePrevCoi : PrevSym :=
  { strikes := fun s => if s = 100 then some { coi := some 100 } else none }

/-- Example prior state holding VWAP accumulators cum_vwap_num = 1000 and
cum_vol = 100 at strike 100 (the state produced by a cold-start observation
of price 10 at volume 100). -/
def exampleVwapPrev : PrevSym :=
  { strikes := fun s =>
      if s = 100 then some { cum_vwap_num := some 1000, cum_vol := some 100 }
      else none }

/-- An all-zero metric bundle, used to populate example candidates. -/
def zeroMetrics : Metrics :=
  { price_trend_pct := 0, ema_prev := none, ema_new := 0, ema_delta := 0
    vwap := none, vwap_dev_pct := 0, iv_delta := 0, iv_now := 0
    oi_speed := 0, ltp := 0, volume := 0, coi := 0 }

/-- Example candidate with score 10 and volume 100. -/
def exampleCandVol100 : Candidate :=
  { strike := 1, side := .CE, ltp := 0, iv := 0, volume := 100, coi := 0
    oi := 0, score := 10, metrics := zeroMetrics }

/-- Example candidate with the same score 10 but volume 200. -/
def exampleCandVol200 : Candidate :=
  { strike := 2, side := .CE, ltp := 0, iv := 0, volume := 200, coi := 0
    oi := 0, score := 10, metrics := zeroMetrics }

/-- Example chain row at strike 100 whose CE side trades volume 5 with
combined open interest 20 + 20 = 40: it fails the liquidity filter. -/
def lowLiqRow : Row :=
  { strikePrice := 100
    CE := some { openInterest := some 20, changeinOpenInterest := some 3
                 totalTradedVolume := some 5, impliedVolatility := some 12
                 lastPrice := some 7 }
    PE := some { openInterest := some 20, changeinOpenInterest := some 0
                 totalTradedVolume := some 0, impliedVolatility := some 0
                 lastPrice := some 0 } }

/-- Analysis window containing only `lowLiqRow`. -/
def lowLiqAnalysis : Analysis :=
  { underlying := 0, atm_strike := 100
    strike_rows := [lowLiqRow], all_rows := [lowLiqRow] }

/-- The `Info` record `analyze_strike_strength` produces for `lowLiqRow`. -/
def lowLiqInfo : Info :=
  { strike := 100
    ce_oi := 20, pe_oi := 20
    ce_chg := 3, pe_chg := 0
    ce_vol := 5, pe_vol := 0
    ce_iv := 12, pe_iv := 0
    ce_ltp := 7, pe_ltp := 0
    ce_strength := 28, pe_strength := 20 }

/-- An analysis with an empty chain: every open-interest sum is 0. -/
def emptyAnalysis : Analysis :=
  { underlying := 0, atm_strike := 0, strike_rows := [], all_rows := [] }

lemma roundTo_zero (n : ℕ) : roundTo n 0 = 0 := by
  simp [roundTo, roundHalfEven]

lemma roundHalfEven_le {q : ℚ} {B : ℤ} (h : q ≤ B) : roundHalfEven q ≤ B := by
  have hfl : ⌊q⌋ ≤ B := by
    have := Int.floor_le_floor h
    simpa using this
  unfold roundHalfEven
  split_ifs with h1 h2 h3
  · exact hfl
  · rcases lt_or_eq_of_le hfl with hlt | heq
    · omega
    · exfalso
      have hq : q ≤ (⌊q⌋ : ℚ) := by rw [heq]; exact_mod_cast h
      linarith
  · exact hfl
  · have hhalf : q - ⌊q⌋ = 1/2 := le_antisymm (not_lt.mp h2) (not_lt.mp h1)
    rcases lt_or_eq_of_le hfl with hlt | heq
    · omega
    · exfalso
      have hq : q ≤ (⌊q⌋ : ℚ) := by rw [heq]; exact_mod_cast h
      linarith

lemma le_roundHalfEven {q : ℚ} {B : ℤ} (h : (B : ℚ) ≤ q) : B ≤ roundHalfEven q := by
  have hfl : B ≤ ⌊q⌋ := Int.le_floor.mpr h
  unfold roundHalfEven
  split_ifs <;> omega

lemma le_clamp (lo hi x : ℚ) : lo ≤ max lo (min hi x) := le_max_left _ _

lemma clamp_le (lo hi x : ℚ) (h : lo ≤ hi) : max lo (min hi x) ≤ hi :=
  max_le h (min_le_left _ _)

lemma clamp_idem (lo hi x : ℚ) (h : lo ≤ hi) :
    max lo (min hi (max lo (min hi x))) = max lo (min hi x) := by
  rw [min_eq_right (clamp_le lo hi x h), ← max_assoc, max_self]

lemma roundTo2_bounds {x : ℚ} (h1 : -100 ≤ x) (h2 : x ≤ 100) :
    -100 ≤ roundTo 2 x ∧ roundTo 2 x ≤ 100 := by
  have hle : roundHalfEven (x * 10 ^ 2) ≤ (10000 : ℤ) :=
    roundHalfEven_le (by push_cast; nlinarith)
  have hge : (-10000 : ℤ) ≤ roundHalfEven (x * 10 ^ 2) :=
    le_roundHalfEven (by push_cast; nlinarith)
  have hle' : (roundHalfEven (x * 10 ^ 2) : ℚ) ≤ 10000 := by exact_mod_cast hle
  have hge' : (-10000 : ℚ) ≤ (roundHalfEven (x * 10 ^ 2) : ℚ) := by
    exact_mod_cast hge
  unfold roundTo
  constructor
  · rw [le_div_iff₀ (by norm_num : (0 : ℚ) < 10 ^ 2)]
    linarith
  · rw [div_le_iff₀ (by norm_num : (0 : ℚ) < 10 ^ 2)]
    linarith

/-- The lexicographic (score, then volume) dominance order used by the final
sort in `select_optimal_strike_with_metrics`. -/
def scoreVolGe (c x : Candidate) : Prop :=
  x.score < c.score ∨ (x.score = c.score ∧ x.volume ≤ c.volume)

lemma scoreVolGe_refl (c : Candidate) : scoreVolGe c c := Or.inr ⟨rfl, le_refl _⟩

lemma scoreVolGe_trans {a b c : Candidate} (h1 : scoreVolGe a b)
    (h2 : scoreVolGe b c) : scoreVolGe a c := by
  rcases h1 with h1 | ⟨h1, h1'⟩ <;> rcases h2 with h2 | ⟨h2, h2'⟩
  · exact Or.inl (lt_trans h2 h1)
  · exact Or.inl (h2 ▸ h1)
  · exact Or.inl (h1 ▸ h2)
  · exact Or.inr ⟨h1 ▸ h2, le_trans h2' h1'⟩

lemma pickStep_cases (b x : Candidate) : pickStep b x = b ∨ pickStep b x = x := by
  unfold pickStep
  split_ifs <;> simp

lemma pickStep_ge_left (b x : Candidate) : scoreVolGe (pickStep b x) b := by
  unfold pickStep
  split_ifs with h
  · rcases h with h | ⟨h, h'⟩
    · exact Or.inl h
    · exact Or.inr ⟨h, le_of_lt h'⟩
  · exact scoreVolGe_refl b

lemma pickStep_ge_right (b x : Candidate) : scoreVolGe (pickStep b x) x := by
  unfold pickStep
  split_ifs with h
  · exact scoreVolGe_refl x
  · push_neg at h
    rcases eq_or_lt_of_le h.1 with heq | hlt
    · exact Or.inr ⟨heq, h.2 heq.symm⟩
    · exact Or.inl hlt

lemma foldl_pickStep_mem (c : Candidate) (cs : List Candidate) :
    cs.foldl pickStep c = c ∨ cs.foldl pickStep c ∈ cs := by
  induction cs generalizing c with
  | nil => simp
  | cons a rest ih =>
    simp only [List.foldl_cons]
    rcases ih (pickStep c a) with h | h
    · rcases pickStep_cases c a with hc | ha
      · exact Or.inl (h.trans hc)
      · rw [ha] at h
        rw [ha, h]
        exact Or.inr (List.mem_cons_self a rest)
    · exact Or.inr (List.mem_cons_of_mem a h)

lemma foldl_pickStep_ge_init (c : Candidate) (cs : List Candidate) :
    scoreVolGe (cs.foldl pickStep c) c := by
  induction cs generalizing c with
  | nil => simpa using scoreVolGe_refl c
  | cons a rest ih =>
    simp only [List.foldl_cons]
    exact scoreVolGe_trans (ih (pickStep c a)) (pickStep_ge_left c a)

lemma foldl_pickStep_ge_mem (c : Candidate) {cs : List Candidate}
    {x : Candidate} (hx : x ∈ cs) : scoreVolGe (cs.foldl pickStep c) x := by
  induction cs generalizing c with
  | nil => cases hx
  | cons a rest ih =>
    simp only [List.foldl_cons]
    rcases List.mem_cons.mp hx with h | h
    · subst h
      exact scoreVolGe_trans (foldl_pickStep_ge_init (pickStep c x) rest)
        (pickStep_ge_right c x)
    · exact ih (pickStep c a) h

lemma pickBest_mem {cs : List Candidate} {c : Candidate}
    (h : pickBest cs = some c) : c ∈ cs := by
  cases cs with
  | nil => simp [pickBest] at h
  | cons a rest =>
    simp only [pickBest, Option.some.injEq] at h
    subst h
    rcases foldl_pickStep_mem a rest with h' | h'
    · rw [h']
      exact List.mem_cons_self a rest
    · exact List.mem_cons_of_mem a h'

lemma pickBest_ge {cs : List Candidate} {c : Candidate}
    (h : pickBest cs = some c) : ∀ x ∈ cs, scoreVolGe c x := by
  cases cs with
  | nil => simp [pickBest] at h
  | cons a rest =>
    simp only [pickBest, Option.some.injEq] at h
    subst h
    intro x hx
    rcases List.mem_cons.mp hx with h' | h'
    · subst h'
      exact foldl_pickStep_ge_init x rest
    · exact foldl_pickStep_ge_mem a h'

lemma selectStep_fst (prev : PrevSym) (prevTime : Option (Option ℚ)) (now u : ℚ)
    (side : Side) (acc : NextStrikes × List Candidate) (info : Info) :
    (selectStep prev prevTime now u side acc info).1 = fun s =>
      if s = info.strike
      then some (computeMetrics prev prevTime now u side info).2
      else acc.1 s := by
  unfold selectStep
  by_cases h : lowLiquidity side info <;> simp [h]

lemma selectStep_snd (prev : PrevSym) (prevTime : Option (Option ℚ)) (now u : ℚ)
    (side : Side) (acc : NextStrikes × List Candidate) (info : Info) :
    (selectStep prev prevTime now u side acc info).2 =
      if lowLiquidity side info then acc.2
      else acc.2 ++ [mkCandidate side info (computeMetrics prev prevTime now u side info).1] := by
  unfold selectStep
  by_cases h : lowLiquidity side info <;> simp [h]

lemma selectLoop_state_isSome (prev : PrevSym) (prevTime : Option (Option ℚ))
    (now u : ℚ) (side : Side) (infos : List Info)
    (acc : NextStrikes × List Candidate) (s : ℤ) (h : (acc.1 s).isSome) :
    ((selectLoop prev prevTime now u side infos acc).1 s).isSome := by
  induction infos generalizing acc with
  | nil => simpa [selectLoop] using h
  | cons a rest ih =>
    simp only [selectLoop]
    apply ih
    rw [selectStep_fst]
    by_cases hs : s = a.strike <;> simp [hs, h]

lemma selectLoop_records (prev : PrevSym) (prevTime : Option (Option ℚ))
    (now u : ℚ) (side : Side) (infos : List Info)
    (acc : NextStrikes × List Candidate) (info : Info) (h : info ∈ infos) :
    ((selectLoop prev prevTime now u side infos acc).1 info.strike).isSome := by
  induction infos generalizing acc with
  | nil => cases h
  | cons a rest ih =>
    simp only [selectLoop]
    rcases List.mem_cons.mp h with h' | h'
    · subst h'
      apply selectLoop_state_isSome
      rw [selectStep_fst]
      simp
    · exact ih _ h'

lemma selectLoop_cands (prev : PrevSym) (prevTime : Option (Option ℚ))
    (now u : ℚ) (side : Side) (infos : List Info)
    (acc : NextStrikes × List Candidate) (c : Candidate)
    (h : c ∈ (selectLoop prev prevTime now u side infos acc).2) :
    c ∈ acc.2 ∨ ∃ info, info ∈ infos ∧ ¬ lowLiquidity side info ∧
      c = mkCandidate side info (computeMetrics prev prevTime now u side info).1 := by
  induction infos generalizing acc with
  | nil => exact Or.inl (by simpa [selectLoop] using h)
  | cons a rest ih =>
    simp only [selectLoop] at h
    rcases ih _ h with h' | ⟨info, hmem, hfilt, hc⟩
    · rw [selectStep_snd] at h'
      by_cases hf : lowLiquidity side a
      · simp only [hf, if_pos] at h'
        exact Or.inl h'
      · simp only [hf, if_neg, not_false_iff, List.mem_append, List.mem_singleton] at h'
        rcases h' with h' | h'
        · exact Or.inl h'
        · exact Or.inr ⟨a, List.mem_cons_self a rest, hf, h'⟩
    · exact Or.inr ⟨info, List.mem_cons_of_mem a hmem, hfilt, hc⟩

/-- C1: the sentiment classifier computes its counters exactly by the stated
rule table (PCR ≥ 1.5 adds 2 bullish, else PCR ≥ 1.2 adds 1 bullish;
PCR ≤ 0.6 adds 2 bearish, else PCR ≤ 0.8 adds 1 bearish; local ratio ≥ 1.3
adds 1 bullish, else local ratio ≤ 0.7 adds 1 bearish) and decides in
priority order bullish ≥ 3 ↦ (call, STRONG_BUY), bullish ≥ 2 ↦ (call, BUY),
bearish ≥ 3 ↦ (put, STRONG_SELL), bearish ≥ 2 ↦ (put, SELL), else no signal;
in particular (1.6, 1.4) ↦ (call, STRONG_BUY), (0.5, 0.5) ↦
(put, STRONG_SELL) and (1.0, 1.0) ↦ no signal. -/
theorem sentiment_classifier_rule_table (pcr w : ℚ) :
    ((sentimentCounters pcr w).1 =
        (if pcr ≥ 1.5 then 2 else if pcr ≥ 1.2 then 1 else 0) +
          (if w ≥ 1.3 then 1 else 0) ∧
      (sentimentCounters pcr w).2 =
        (if pcr ≤ 0.6 then 2 else if pcr ≤ 0.8 then 1 else 0) +
          (if w ≥ 1.3 then 0 else if w ≤ 0.7 then 1 else 0)) ∧
    (∀ b br : ℤ, decide_side_label b br =
      if b ≥ 3 then some (Side.CE, Label.STRONG_BUY)
      else if b ≥ 2 then some (Side.CE, Label.BUY)
      else if br ≥ 3 then some (Side.PE, Label.STRONG_SELL)
      else if br ≥ 2 then some (Side.PE, Label.SELL)
      else none) ∧
    classifySentiment 1.6 1.4 = some (Side.CE, Label.STRONG_BUY) ∧
    classifySentiment 0.5 0.5 = some (Side.PE, Label.STRONG_SELL) ∧
    classifySentiment 1 1 = none := by
  refine ⟨⟨?_, ?_⟩, fun b br => rfl, ?_, ?_, ?_⟩
  · simp only [sentimentCounters]
    split_ifs <;> norm_num
  · simp only [sentimentCounters]
    split_ifs <;> norm_num
  · norm_num [classifySentiment, sentimentCounters, decide_side_label]
  · norm_num [classifySentiment, sentimentCounters, decide_side_label]
  · norm_num [classifySentiment, sentimentCounters, decide_side_label]

/-- C4: with period 3 the smoothing factor 2/(period+1) is 1/2; a first
observation sets the EMA to the raw price with no smoothing, a subsequent
observation `p` against prior EMA `e` gives 0.5·p + 0.5·e (so x then y gives
0.5·y + 0.5·x), and the derived delta is new EMA − prior EMA, 0 when there is
no prior. -/
theorem ema_period3_update :
    ((2 : ℚ) / (EMA_PERIOD + 1) = 1 / 2) ∧
    (∀ x : ℚ, ema_update none x EMA_PERIOD = x) ∧
    (∀ e p : ℚ, ema_update (some e) p EMA_PERIOD = (1 / 2) * p + (1 / 2) * e) ∧
    (∀ x y : ℚ,
      ema_update (some (ema_update none x EMA_PERIOD)) y EMA_PERIOD =
        (1 / 2) * y + (1 / 2) * x) ∧
    (∀ (prev : PrevSym) (strike : ℤ) (p : ℚ),
      prev.strikes strike = none →
      compute_ema_and_update prev strike p = (none, p)) ∧
    (∀ (prev : PrevSym) (strike : ℤ) (p e : ℚ) (st : PrevStrike),
      prev.strikes strike = some st → st.ema_ltp = some e →
      compute_ema_and_update prev strike p = (some e, (1 / 2) * p + (1 / 2) * e)) ∧
    (∀ x : ℚ, ema_delta_of none x = 0) ∧
    (∀ e n : ℚ, ema_delta_of (some e) n = n - e) := by
  refine ⟨by norm_num [EMA_PERIOD], fun x => rfl, ?_, ?_, ?_, ?_, fun x => rfl,
    fun e n => rfl⟩
  · intro e p
    simp only [ema_update, EMA_PERIOD]
    norm_num
  · intro x y
    simp only [ema_update, EMA_PERIOD]
    norm_num
  · intro prev strike p h
    simp [compute_ema_and_update, h, ema_update]
  · intro prev strike p e st hst he
    simp only [compute_ema_and_update, hst, Option.some_bind]
    rw [he]
    simp only [ema_update, EMA_PERIOD]
    norm_num

/-- Witness for C4: on a cold-start state, strike 100 with price 7 yields
prior `none` and EMA exactly 7. -/
theorem ema_period3_update_witness :
    compute_ema_and_update emptyPrevSym 100 7 = (none, 7) :=
  ema_period3_update.2.2.2.2.1 emptyPrevSym 100 7 rfl

/-- C7 counterexample: a snapshot file whose content is the valid JSON
document `42` is malformed as a snapshot, yet `load_snapshot` returns it
unchanged — neither a committed generation (which is always an object) nor
the empty structure. -/
theorem load_snapshot_nonobject_cex :
    load_snapshot (.readable (.num 42)) = .num 42 ∧
    Json.num 42 ≠ emptySnapshotJson ∧
    (Json.num 42).isObj = false := by
  refine ⟨rfl, ?_, rfl⟩
  simp [emptySnapshotJson]

/-- C7 as amended: `load_snapshot` is a total function that never raises past
its boundary; it returns the parsed file content whenever the file exists and
its bytes parse as JSON (even when that content is not snapshot-shaped), and
the empty structure (timestamp null, no symbols) exactly when the file is
missing or reading/parsing raises. -/
theorem load_snapshot_total (fs : FileState) :
    (∃ doc, fs = .readable doc ∧ load_snapshot fs = doc) ∨
    ((fs = .missing ∨ fs = .unreadable) ∧ load_snapshot fs = emptySnapshotJson) := by
  cases fs with
  | missing => exact Or.inr ⟨Or.inl rfl, rfl⟩
  | unreadable => exact Or.inr ⟨Or.inr rfl, rfl⟩
  | readable doc => exact Or.inl ⟨doc, rfl, rfl⟩

/-- C8: the Composite Scorer is invariant under clamping each raw metric to
its fixed domain — in particular a price trend of +10 scores exactly like +3 —
and for every metric bundle the final score (the weighted sum with weights
0.30/0.20/0.15/0.20/0.15 times 100, rounded to 2 decimals) lies in
[-100, 100]. -/
theorem scorer_clamp_invariant_range (m : ScoreInput) :
    score_candidate (clampScoreInput m) = score_candidate m ∧
    score_candidate { m with price_trend_pct := 10 } =
      score_candidate { m with price_trend_pct := 3 } ∧
    -100 ≤ score_candidate m ∧ score_candidate m ≤ 100 := by
  refine ⟨?_, ?_, ?_⟩
  · simp only [score_candidate, clampScoreInput]
    rw [clamp_idem (-3) 3 m.price_trend_pct (by norm_num),
      clamp_idem (-5) 5 m.ema_delta (by norm_num),
      clamp_idem (-10) 10 m.vwap_dev_pct (by norm_num),
      clamp_idem (-5) 5 m.iv_delta (by norm_num),
      clamp_idem (-1000) 1000 m.oi_speed (by norm_num)]
  · have h : max (-3 : ℚ) (min 3 10) = max (-3 : ℚ) (min 3 3) := by
      rw [min_eq_left (by norm_num : (3 : ℚ) ≤ 10), min_self]
    simp only [score_candidate]
    rw [h]
  · have ha1 := le_clamp (-3 : ℚ) 3 m.price_trend_pct
    have ha2 := clamp_le (-3 : ℚ) 3 m.price_trend_pct (by norm_num)
    have hb1 := le_clamp (-5 : ℚ) 5 m.ema_delta
    have hb2 := clamp_le (-5 : ℚ) 5 m.ema_delta (by norm_num)
    have hc1 := le_clamp (-10 : ℚ) 10 m.vwap_dev_pct
    have hc2 := clamp_le (-10 : ℚ) 10 m.vwap_dev_pct (by norm_num)
    have hd1 := le_clamp (-5 : ℚ) 5 m.iv_delta
    have hd2 := clamp_le (-5 : ℚ) 5 m.iv_delta (by norm_num)
    have he1 := le_clamp (-1000 : ℚ) 1000 m.oi_speed
    have he2 := clamp_le (-1000 : ℚ) 1000 m.oi_speed (by norm_num)
    simp only [score_candidate, WEIGHT_price_trend, WEIGHT_ema_momentum,
      WEIGHT_vwap_dev, WEIGHT_iv_trend, WEIGHT_oi_speed]
    exact roundTo2_bounds (by nlinarith) (by nlinarith)

/-- C9: the VWAP computation adds price×volume to `cum_vwap_num` and volume to
`cum_vol` on each observation, defines vwap = cum_num/cum_vol exactly when the
updated cum_vol is positive, reports deviation% = (price − vwap)/vwap × 100
(with 0 substituted when vwap is undefined), and the chain (price 10, vol 100)
then (price 20, vol 100) from a cold start yields cum_num 3000, cum_vol 200
and vwap 15. -/
theorem vwap_accumulate_and_dev :
    (∀ (prev : PrevSym) (strike : ℤ) (ltp : ℚ) (vol : ℤ),
      (compute_vwap_and_update prev strike ltp vol).2.1 =
        prev_cum_num prev strike + ltp * (vol : ℚ) ∧
      (compute_vwap_and_update prev strike ltp vol).2.2 =
        prev_cum_vol prev strike + vol ∧
      (prev_cum_vol prev strike + vol > 0 →
        (compute_vwap_and_update prev strike ltp vol).1 =
          some ((prev_cum_num prev strike + ltp * (vol : ℚ)) /
            ((prev_cum_vol prev strike + vol : ℤ) : ℚ))) ∧
      (¬ prev_cum_vol prev strike + vol > 0 →
        (compute_vwap_and_update prev strike ltp vol).1 = none)) ∧
    (∀ v ltp : ℚ, vwap_dev_of (some v) ltp = (ltp - v) / v * 100) ∧
    (∀ ltp : ℚ, vwap_dev_of none ltp = 0) ∧
    (compute_vwap_and_update emptyPrevSym 100 10 100).2.1 = 1000 ∧
    (compute_vwap_and_update emptyPrevSym 100 10 100).2.2 = 100 ∧
    compute_vwap_and_update exampleVwapPrev 100 20 100 = (some 15, 3000, 200) := by
  have key : ∀ (prev : PrevSym) (strike : ℤ) (ltp : ℚ) (vol : ℤ),
      (if ltp ≠ 0 ∧ vol ≠ 0 then ltp * (vol : ℚ) else 0) = ltp * (vol : ℚ) := by
    intro prev strike ltp vol
    split_ifs with h
    · rfl
    · push_neg at h
      by_cases hl : ltp = 0
      · simp [hl]
      · simp [h hl]
  refine ⟨?_, ?_, fun ltp => rfl, ?_, ?_, ?_⟩
  · intro prev strike ltp vol
    refine ⟨?_, rfl, ?_, ?_⟩
    · simp only [compute_vwap_and_update]
      rw [key prev strike ltp vol]
    · intro h
      simp only [compute_vwap_and_update]
      rw [key prev strike ltp vol]
      simp [h]
    · intro h
      simp only [compute_vwap_and_update]
      simp [h]
  · intro v ltp
    by_cases hv : v = 0
    · simp [vwap_dev_of, hv]
    · simp [vwap_dev_of, hv]
  · norm_num [compute_vwap_and_update, prev_cum_num, prev_cum_vol, emptyPrevSym]
  · norm_num [compute_vwap_and_update, prev_cum_num, prev_cum_vol, emptyPrevSym]
  · norm_num [compute_vwap_and_update, prev_cum_num, prev_cum_vol,
      exampleVwapPrev]

/-- Witness for C9: on the cold-start observation (price 10, vol 100) the
updated cum_vol 100 is positive and the vwap is defined as 1000/100. -/
theorem vwap_accumulate_and_dev_witness :
    (compute_vwap_and_update emptyPrevSym 100 10 100).1 =
      some ((prev_cum_num emptyPrevSym 100 + 10 * ((100 : ℤ) : ℚ)) /
        ((prev_cum_vol emptyPrevSym 100 + 100 : ℤ) : ℚ)) :=
  (vwap_accumulate_and_dev.1 emptyPrevSym 100 10 100).2.2.1
    (by norm_num [prev_cum_vol, emptyPrevSym])

/-- C5 counterexample: with a recorded baseline coi = 100 at strike 100, a
parseable previous timestamp 3 minutes old, and a current coi of 101, the code
returns `round((101-100)/3, 4) = 0.3333`, which differs from the exact
quotient 1/3 demanded by the claim. -/
theorem oi_velocity_exact_cex :
    examplePrevCoi.strikes 100 = some { coi := some 100 } ∧
    compute_oi_speed (some (some 0)) 3 examplePrevCoi 100 101 = 3333 / 10000 ∧
    (3333 / 10000 : ℚ) ≠ ((101 : ℚ) - 100) / 3 := by
  refine ⟨rfl, ?_, by norm_num⟩
  norm_num [compute_oi_speed, examplePrevCoi, roundTo, roundHalfEven, max_def]

/-- C5 as amended: with a recorded baseline and a parseable previous
timestamp, OI velocity equals (current coi − prior coi) / elapsed minutes
(clamped below at 1) *rounded to 4 decimal places*; the stated examples
(50.0 at one clamped minute and 5.0 over ten minutes) are exact; with no
previous timestamp, or an unparseable one, velocity is 0, and the current coi
is still recorded as the strike's new baseline. -/
theorem oi_velocity_rounded (prev : PrevSym) (t now : ℚ) (strike : ℤ)
    (coi prevCoi : ℤ) (st : PrevStrike)
    (hst : prev.strikes strike = some st) (hcoi : st.coi = some prevCoi) :
    compute_oi_speed (some (some t)) now prev strike coi =
      roundTo 4 (((coi : ℚ) - (prevCoi : ℚ)) / max 1 (now - t)) ∧
    compute_oi_speed none now prev strike coi = 0 ∧
    compute_oi_speed (some none) now prev strike coi = 0 ∧
    (∀ (side : Side) (info : Info) (u : ℚ),
      (computeMetrics prev none now u side info).2.coi =
        (chooseSide side info).coi) ∧
    compute_oi_speed (some (some 0)) (1 / 2) examplePrevCoi 100 150 = 50 ∧
    compute_oi_speed (some (some 0)) 10 examplePrevCoi 100 150 = 5 := by
  refine ⟨?_, rfl, rfl, fun side info u => rfl, ?_, ?_⟩
  · simp only [compute_oi_speed, hst]
    rw [hcoi]
    rfl
  · norm_num [compute_oi_speed, examplePrevCoi, roundTo, roundHalfEven, max_def]
  · norm_num [compute_oi_speed, examplePrevCoi, roundTo, roundHalfEven, max_def]

/-- Witness for C5: the baseline-100 state at strike 100 with a timestamp
parsed half a minute ago and current coi 150 yields the clamped-minute
velocity 50. -/
theorem oi_velocity_rounded_witness :
    compute_oi_speed (some (some 0)) (1 / 2) examplePrevCoi 100 150 = 50 :=
  (oi_velocity_rounded examplePrevCoi 0 (1 / 2) 100 150 100
    { coi := some 100 } rfl rfl).2.2.2.2.1

lemma add_num_eq (ltp : ℚ) (vol : ℤ) :
    (if ltp ≠ 0 ∧ vol ≠ 0 then ltp * (vol : ℚ) else 0) = ltp * (vol : ℚ) := by
  split_ifs with h
  · rfl
  · push_neg at h
    by_cases hl : ltp = 0
    · simp [hl]
    · simp [h hl]

/-- C2 counterexample: strike 100 is absent from the prior generation's
state, yet with a parseable prior run timestamp 2 minutes old and a current
change-in-open-interest of 60 the Metric Engine reports an OI velocity of 30,
not the neutral 0 the claim demands (the absent strike's baseline defaults to
0 instead of suppressing the velocity). -/
theorem cold_start_oi_velocity_cex :
    emptyPrevSym.strikes 100 = none ∧
    (computeMetrics emptyPrevSym (some (some 0)) 2 0 Side.CE
      exampleInfo60).1.oi_speed = 30 ∧
    (30 : ℚ) ≠ 0 := by
  refine ⟨rfl, ?_, by norm_num⟩
  norm_num [computeMetrics, compute_oi_speed, exampleInfo60, emptyPrevSym,
    chooseSide, roundTo, roundHalfEven, max_def]

/-- C2 as amended: for a strike absent from the prior generation's state the
EMA delta, VWAP deviation and IV delta are all 0 and the current observation
(price as EMA, price×volume and volume as the accumulators, current IV,
current coi) is recorded as the sole baseline; the OI velocity is 0 when the
prior snapshot has no parseable timestamp (in particular for an entirely
empty prior snapshot), but when a parseable prior timestamp exists the absent
strike's baseline defaults to 0 and the velocity is the rounded
coi/elapsed-minutes quotient, which need not be 0. -/
theorem cold_start_deltas (prev : PrevSym) (prevTime : Option (Option ℚ))
    (now u : ℚ) (side : Side) (info : Info)
    (h : prev.strikes info.strike = none) :
    (computeMetrics prev prevTime now u side info).1.ema_delta = 0 ∧
    (computeMetrics prev prevTime now u side info).1.vwap_dev_pct = 0 ∧
    (computeMetrics prev prevTime now u side info).1.iv_delta = 0 ∧
    (computeMetrics prev prevTime now u side info).2 =
      { ema_ltp := (chooseSide side info).ltp
        cum_vwap_num := (chooseSide side info).ltp * ((chooseSide side info).vol : ℚ)
        cum_vol := (chooseSide side info).vol
        iv := (chooseSide side info).iv
        coi := (chooseSide side info).coi } ∧
    (prevTime = none ∨ prevTime = some none →
      (computeMetrics prev prevTime now u side info).1.oi_speed = 0) ∧
    (∀ t, prevTime = some (some t) →
      (computeMetrics prev prevTime now u side info).1.oi_speed =
        roundTo 4 (((chooseSide side info).coi : ℚ) / max 1 (now - t))) := by
  have hn : prev_cum_num prev info.strike = 0 := by simp [prev_cum_num, h]
  have hv : prev_cum_vol prev info.strike = 0 := by simp [prev_cum_vol, h]
  refine ⟨?_, ?_, ?_, ?_, ?_, ?_⟩
  · simp [computeMetrics, compute_ema_and_update, h, ema_delta_of, roundTo_zero]
  · have hdev : vwap_dev_of
        (compute_vwap_and_update prev info.strike (chooseSide side info).ltp
          (chooseSide side info).vol).1 (chooseSide side info).ltp = 0 := by
      simp only [compute_vwap_and_update, hn, hv, zero_add]
      by_cases hvol : (0 : ℤ) < (chooseSide side info).vol
      · by_cases hltp : (chooseSide side info).ltp = 0
        · simp [hltp, hvol, vwap_dev_of]
        · have hvol' : (chooseSide side info).vol ≠ 0 := by omega
          have hcast : (((chooseSide side info).vol : ℤ) : ℚ) ≠ 0 :=
            Int.cast_ne_zero.mpr hvol'
          simp only [hltp, hvol', ne_eq, not_false_iff, and_self, if_true,
            if_pos hvol, gt_iff_lt, mul_div_assoc]
          rw [div_self hcast, mul_one]
          simp [vwap_dev_of, hltp]
      · simp [hvol, vwap_dev_of]
    simp only [computeMetrics]
    rw [hdev, roundTo_zero]
  · simp [computeMetrics, compute_iv_trend_and_update, h, roundTo_zero]
  · simp only [computeMetrics, compute_ema_and_update, compute_vwap_and_update,
      hn, hv, h, Option.none_bind, zero_add, ema_update, add_num_eq]
  · rintro (ht | ht) <;> subst ht <;> simp [computeMetrics, compute_oi_speed]
  · intro t ht
    subst ht
    simp [computeMetrics, compute_oi_speed, h]

/-- Witness for C2: on the fully empty prior snapshot (no timestamp, no
strikes) the cold-start strike's EMA delta is 0 and its OI velocity is 0. -/
theorem cold_start_deltas_witness :
    (computeMetrics emptyPrevSym none 0 0 Side.CE exampleInfo60).1.ema_delta = 0 ∧
    (computeMetrics emptyPrevSym none 0 0 Side.CE exampleInfo60).1.oi_speed = 0 := by
  have h := cold_start_deltas emptyPrevSym none 0 0 Side.CE exampleInfo60 rfl
  exact ⟨h.1, h.2.2.2.2.1 (Or.inl rfl)⟩

/-- C6: the selector returns no candidate on an empty survivor list; on a
non-empty survivor list it returns a member whose score is maximal, and among
candidates sharing the maximal score one with the highest volume; with equal
score and volumes 100 versus 200 it picks the 200-volume candidate; and when
the loop produced no surviving candidate, `select_optimal_strike_with_metrics`
returns none. -/
theorem selector_max_then_volume :
    pickBest [] = none ∧
    (∀ (cs : List Candidate) (c : Candidate), pickBest cs = some c →
      c ∈ cs ∧ ∀ x ∈ cs, x.score < c.score ∨
        (x.score = c.score ∧ x.volume ≤ c.volume)) ∧
    (∀ cs : List Candidate, cs ≠ [] → ∃ c, pickBest cs = some c) ∧
    pickBest [exampleCandVol100, exampleCandVol200] = some exampleCandVol200 ∧
    (∀ (prev : PrevSym) (prevTime : Option (Option ℚ)) (now : ℚ)
      (analysis : Analysis) (side : Side),
      (selectLoop prev prevTime now analysis.underlying side
        (analyze_strike_strength analysis.strike_rows) (fun _ => none, [])).2 = [] →
      (select_optimal_strike_with_metrics prev prevTime now analysis side).2 =
        none) := by
  refine ⟨rfl, ?_, ?_, ?_, ?_⟩
  · intro cs c h
    exact ⟨pickBest_mem h, pickBest_ge h⟩
  · intro cs h
    cases cs with
    | nil => exact absurd rfl h
    | cons a rest => exact ⟨_, rfl⟩
  · simp only [pickBest, List.foldl_cons, List.foldl_nil, pickStep,
      exampleCandVol100, exampleCandVol200]
    norm_num
  · intro prev prevTime now analysis side h
    simp only [select_optimal_strike_with_metrics]
    rw [h]
    rfl

/-- Witness for C6: applied to the singleton survivor list, the selected
candidate is a member of the list. -/
theorem selector_max_then_volume_witness :
    exampleCandVol200 ∈ [exampleCandVol200] :=
  (selector_max_then_volume.2.1 [exampleCandVol200] exampleCandVol200 rfl).1

/-- C3 counterexample: the strike-100 candidate trades volume 5 with combined
open interest 40, so it is dropped and nothing is selected — yet its full
next-generation state contribution (EMA 7, accumulators 35/5, IV 12, coi 3)
is recorded, because in the source the metric/recording block runs before the
liquidity filter.  The filtered-out strike therefore does leave a trace. -/
theorem liquidity_filter_records_state_cex :
    (select_optimal_strike_with_metrics emptyPrevSym none 0 lowLiqAnalysis
      Side.CE).2 = none ∧
    (select_optimal_strike_with_metrics emptyPrevSym none 0 lowLiqAnalysis
      Side.CE).1 100 =
      some { ema_ltp := 7, cum_vwap_num := 35, cum_vol := 5, iv := 12, coi := 3 } ∧
    (chooseSide Side.CE lowLiqInfo).vol = 5 ∧
    lowLiqInfo.ce_oi + lowLiqInfo.pe_oi = 40 := by
  refine ⟨?_, ?_, rfl, rfl⟩
  · norm_num [select_optimal_strike_with_metrics, analyze_strike_strength,
      lowLiqAnalysis, lowLiqRow, selectLoop, selectStep, lowLiquidity,
      chooseSide, pickBest]
  · norm_num [select_optimal_strike_with_metrics, analyze_strike_strength,
      lowLiqAnalysis, lowLiqRow, selectLoop, selectStep, lowLiquidity,
      chooseSide, computeMetrics, compute_price_trend, compute_ema_and_update,
      compute_vwap_and_update, compute_iv_trend_and_update, compute_oi_speed,
      ema_update, ema_delta_of, vwap_dev_of, prev_cum_num, prev_cum_vol,
      emptyPrevSym, EMA_PERIOD]

/-- C3 as amended: a candidate failing the liquidity test (own-side volume
below 10 and combined open interest below 50) is dropped before scoring and
can never be the selected candidate — every selected candidate comes from a
strike passing the filter — but the Metric Engine still runs for it, so every
strike of the window, filtered or not, has its next-generation state
contribution recorded. -/
theorem liquidity_filter_scope (prev : PrevSym) (prevTime : Option (Option ℚ))
    (now : ℚ) (analysis : Analysis) (side : Side) :
    (∀ info ∈ analyze_strike_strength analysis.strike_rows,
      ((select_optimal_strike_with_metrics prev prevTime now analysis
        side).1 info.strike).isSome) ∧
    (∀ c, (select_optimal_strike_with_metrics prev prevTime now analysis
        side).2 = some c →
      ∃ info, info ∈ analyze_strike_strength analysis.strike_rows ∧
        ¬ lowLiquidity side info ∧
        c = mkCandidate side info
          (computeMetrics prev prevTime now analysis.underlying side info).1) := by
  constructor
  · intro info hinfo
    simp only [select_optimal_strike_with_metrics]
    exact selectLoop_records prev prevTime now analysis.underlying side _ _
      info hinfo
  · intro c hc
    simp only [select_optimal_strike_with_metrics] at hc
    have hmem := pickBest_mem hc
    rcases selectLoop_cands prev prevTime now analysis.underlying side _ _ c
      hmem with h | h
    · simp at h
    · exact h

/-- Witness for C3: the analysis window around `lowLiqRow` gets its strike
recorded in the returned next-generation state. -/
theorem liquidity_filter_scope_witness :
    ((select_optimal_strike_with_metrics emptyPrevSym none 0 lowLiqAnalysis
      Side.CE).1 lowLiqInfo.strike).isSome :=
  (liquidity_filter_scope emptyPrevSym none 0 lowLiqAnalysis Side.CE).1
    lowLiqInfo
    (by simp [analyze_strike_strength, lowLiqAnalysis, lowLiqRow, lowLiqInfo])

/-- C10: when the whole chain's call open interest sums to zero, the PCR is
the division-by-zero substitute 0.0, which always adds 2 to the bearish
counter while the bullish counter can reach at most 1; the classifier
therefore always decides the put side (STRONG_SELL when the local window
quotient is ≤ 0.7, else SELL), a call-side signal is impossible, and the
generator returns no signal exactly when the selector finds no candidate,
otherwise a put-side SELL/STRONG_SELL signal. -/
theorem zero_call_oi_put_side (prev : PrevSym) (prevTime : Option (Option ℚ))
    (now : ℚ) (analysis : Analysis)
    (h : sum_oi Row.CE analysis.all_rows = 0) :
    oi_put_call_quotient analysis.all_rows = 0 ∧
    (sentimentCounters 0 (oi_put_call_quotient analysis.strike_rows)).2 ≥ 2 ∧
    (sentimentCounters 0 (oi_put_call_quotient analysis.strike_rows)).1 ≤ 1 ∧
    classifySentiment 0 (oi_put_call_quotient analysis.strike_rows) =
      some (Side.PE,
        if oi_put_call_quotient analysis.strike_rows ≤ 0.7
        then Label.STRONG_SELL else Label.SELL) ∧
    ((generate_signal_from_analysis prev prevTime now analysis).2 = none ↔
      (select_optimal_strike_with_metrics prev prevTime now analysis
        Side.PE).2 = none) ∧
    (∀ s, (generate_signal_from_analysis prev prevTime now analysis).2 =
        some s →
      s.option_type = Side.PE ∧
        (s.signal = Label.SELL ∨ s.signal = Label.STRONG_SELL)) := by
  have hq : oi_put_call_quotient analysis.all_rows = 0 := by
    simp [oi_put_call_quotient, h]
  have hcount : sentimentCounters 0 (oi_put_call_quotient analysis.strike_rows) =
      (if oi_put_call_quotient analysis.strike_rows ≥ 1.3 then 1 else 0,
       if oi_put_call_quotient analysis.strike_rows ≤ 0.7 then 3 else 2) := by
    simp only [sentimentCounters]
    norm_num
    split_ifs with h1 h2 <;> first | rfl | (exfalso; linarith)
  have hclass : classifySentiment 0 (oi_put_call_quotient analysis.strike_rows) =
      some (Side.PE,
        if oi_put_call_quotient analysis.strike_rows ≤ 0.7
        then Label.STRONG_SELL else Label.SELL) := by
    rw [classifySentiment, hcount]
    by_cases h1 : oi_put_call_quotient analysis.strike_rows ≥ 1.3 <;>
      by_cases h2 : oi_put_call_quotient analysis.strike_rows ≤ 0.7
    · exfalso; linarith
    · simp [h1, h2, decide_side_label]
    · simp [h1, h2, decide_side_label]
    · simp [h1, h2, decide_side_label]
  have hgen : (generate_signal_from_analysis prev prevTime now analysis).2 =
      ((select_optimal_strike_with_metrics prev prevTime now analysis
        Side.PE).2).map (fun best =>
        { signal := if oi_put_call_quotient analysis.strike_rows ≤ 0.7
            then Label.STRONG_SELL else Label.SELL
          option_type := Side.PE
          strike := best.strike
          atm := analysis.atm_strike
          distance_from_atm :=
            if best.strike ≠ 0 ∧ analysis.atm_strike ≠ 0
            then |best.strike - analysis.atm_strike| else 0
          ltp := best.ltp
          oi := best.oi
          coi := best.coi
          volume := best.volume
          iv := best.iv
          score := best.score
          pcr := roundTo 3 (oi_put_call_quotient analysis.all_rows)
          oi_window := roundTo 3
            (oi_put_call_quotient analysis.strike_rows) }) := by
    simp only [generate_signal_from_analysis, hq, hclass]
    cases hsel : (select_optimal_strike_with_metrics prev prevTime now analysis
      Side.PE).2 with
    | none => simp [hsel]
    | some best => simp [hsel, hq]
  refine ⟨hq, ?_, ?_, hclass, ?_, ?_⟩
  · rw [hcount]
    split_ifs <;> norm_num
  · rw [hcount]
    split_ifs <;> norm_num
  · rw [hgen]
    cases hsel : (select_optimal_strike_with_metrics prev prevTime now analysis
      Side.PE).2 <;> simp [hsel]
  · intro s hs
    rw [hgen] at hs
    cases hsel : (select_optimal_strike_with_metrics prev prevTime now analysis
      Side.PE).2 with
    | none => rw [hsel] at hs; simp at hs
    | some best =>
      rw [hsel] at hs
      simp only [Option.map_some', Option.some.injEq] at hs
      subst hs
      refine ⟨rfl, ?_⟩
      by_cases h7 : oi_put_call_quotient analysis.strike_rows ≤ 0.7
      · exact Or.inr (by simp [h7])
      · exact Or.inl (by simp [h7])

/-- Witness for C10: the empty chain has zero call open interest and its PCR
is computed as 0. -/
theorem zero_call_oi_put_side_witness :
    oi_put_call_quotient emptyAnalysis.all_rows = 0 :=
  (zero_call_oi_put_side emptyPrevSym none 0 emptyAnalysis rfl).1
